import Mathlib

/-!
Verification of the CrystalLab quality-report routes (`routes.py`).

The repository's `routes.py` is embedded shallowly below. A loaded pandas
DataFrame is modelled as an ordered list of column names together with an
ordered list of rows (each row an ordered list of cell values, rendered as
strings; none of the verified properties depends on the cell type).
External collaborators that live outside `routes.py` (the pandas readers,
the detectors of `quality.py`) enter as explicit inputs or, where a claim
is about their contract, as definitions modelled from the specification.
-/

namespace CrystalLab

/-- A loaded tabular dataset: ordered column names and ordered rows of cell
values, aligned positionally. The default integer index of a freshly loaded
frame is the row position. -/
structure Df where
  cols : List String
  rows : List (List String)
deriving Repr, DecidableEq

/-- The tag column name added to each selected block, `routes.py` lines
293/298/303. -/
def outlierTypeCol : String := "__outlier_type__"

/-- `df.loc[idx]` for a list of row labels on a default-indexed frame:
the selected rows, in the order of the index list. -/
def selectRows (df : Df) (idx : List Nat) : Df :=
  ⟨df.cols, idx.map (fun i => df.rows.getD i [])⟩

/-- `temp[c] = v`: append a constant-valued column to a frame. -/
def addCol (df : Df) (c v : String) : Df :=
  ⟨df.cols ++ [c], df.rows.map (fun r => r ++ [v])⟩

/-- `.copy()`: pandas deep copy; in the value semantics of the embedding the
copied value itself. -/
def copyDf (df : Df) : Df := df

/-!
## The merged-outliers block, `routes.py` lines 289-306

Two views of the same block are embedded. `mergedBlockState` threads the
dataframe state explicitly and keeps each appended block as a frame, so that
what the block does (and does not do) to `df` is visible. `buildMerged` is
the row-level view of the same construction: the tagged sequence of
(source row index, category tag, row data) entries that the concatenated
frame holds, in order.
-/

/-- One entry of the merged outlier view: the flagged source-row index, the
category tag written into `__outlier_type__`, and the row's data. -/
structure TaggedRow where
  idx : Nat
  tag : String
  data : List String
deriving Repr, DecidableEq

/-- The tagged entries contributed by one detector: one entry per index in
its list, in list order, all carrying that detector's tag. -/
def tagRows (df : Df) (idx : List Nat) (tag : String) : List TaggedRow :=
  idx.map (fun i => ⟨i, tag, df.rows.getD i []⟩)

/-- Lines 289-306, frame-level: `merged_rows = []`; for each nonempty index
list, `temp = df.loc[idx].copy()`, `temp["__outlier_type__"] = label`,
`merged_rows.append(temp)` — statistical first, then semantic, then
structural. Returns the dataframe as it stands after the block together
with the appended frames. -/
def mergedBlockState (df : Df) (statIdx semIdx structIdx : List Nat) :
    Df × List Df :=
  let mergedRows : List Df := []
  let st1 :=
    if statIdx = [] then (df, mergedRows)
    else
      let temp := copyDf (selectRows df statIdx)
      let temp := addCol temp outlierTypeCol "Statistical"
      (df, mergedRows ++ [temp])
  let st2 :=
    if semIdx = [] then st1
    else
      let temp := copyDf (selectRows st1.1 semIdx)
      let temp := addCol temp outlierTypeCol "AI-Based"
      (st1.1, st1.2 ++ [temp])
  let st3 :=
    if structIdx = [] then st2
    else
      let temp := copyDf (selectRows st2.1 structIdx)
      let temp := addCol temp outlierTypeCol "Structural"
      (st2.1, st2.2 ++ [temp])
  st3

/-- Lines 289-306, row-level: the tagged sequence held by
`pd.concat(merged_rows, ignore_index=True)` — statistical block, then
semantic ("AI-Based"), then structural, each block in its index list's
order; an empty index list contributes nothing. -/
def buildMerged (df : Df) (statIdx semIdx structIdx : List Nat) :
    List TaggedRow :=
  (if statIdx = [] then [] else tagRows df statIdx "Statistical")
    ++ (if semIdx = [] then [] else tagRows df semIdx "AI-Based")
    ++ (if structIdx = [] then [] else tagRows df structIdx "Structural")

/-!
## The filter step, `routes.py` lines 306-318
-/

/-- Python's `str.lower()`, character-wise. -/
def pyLower (s : String) : String := ⟨s.data.map Char.toLower⟩

/-- Line 309: `request.args.get("filter", "all").lower()` — the raw request
parameter (absent ↦ "all"), lower-cased. -/
def selectorOf (param : Option String) : String :=
  pyLower (param.getD "all")

/-- Lines 311-318 on the tagged sequence: keep the rows whose tag matches
the selected category, or the whole sequence for any other selector. -/
def filterTagged (param : Option String) (merged : List TaggedRow) :
    List TaggedRow :=
  let s := selectorOf param
  if s = "statistical" then merged.filter (fun r => r.tag == "Statistical")
  else if s = "ai" then merged.filter (fun r => r.tag == "AI-Based")
  else if s = "structural" then merged.filter (fun r => r.tag == "Structural")
  else merged

/-- Line 306: `pd.concat(merged_rows, ignore_index=True) if merged_rows else
pd.DataFrame()`. When every index list is empty, `merged_rows` is empty and
`merged_df` is a column-less empty frame — it has no `__outlier_type__`
column, which `none` records here. -/
def mergedDfOf (df : Df) (statIdx semIdx structIdx : List Nat) :
    Option (List TaggedRow) :=
  if statIdx = [] ∧ semIdx = [] ∧ structIdx = [] then none
  else some (buildMerged df statIdx semIdx structIdx)

/-- Lines 309-318 on `merged_df` itself: a category selector indexes
`merged_df["__outlier_type__"]`, which raises `KeyError` when the column is
absent (the empty-frame case); any other selector just takes `merged_df`
whole. -/
def filteredDfOf (param : Option String) (mergedDf : Option (List TaggedRow)) :
    Except String (List TaggedRow) :=
  let s := selectorOf param
  if s = "statistical" ∨ s = "ai" ∨ s = "structural" then
    match mergedDf with
    | none => Except.error "KeyError: __outlier_type__"
    | some l => Except.ok (filterTagged param l)
  else Except.ok (mergedDf.getD [])

/-- The `quality_issues` route from line 289 on, restricted to the outlier
view it computes after `load_df` has succeeded: the filtered tagged view, or
the exception the filter step raises. (Lines 256-260 load the dataset;
everything after line 306 either renders total values or degrades, see the
per-claim theorems.) -/
def quality_issues (df : Df) (statIdx semIdx structIdx : List Nat)
    (param : Option String) : Except String (List TaggedRow) :=
  filteredDfOf param (mergedDfOf df statIdx semIdx structIdx)

/-!
## The dataset loader, `routes.py` lines 34-46

The pandas readers are external collaborators; a file on disk enters the
embedding as the outcome each reader would produce on it. `read_csv` with
`encoding="utf-8"` can fail with a `UnicodeDecodeError` (the only exception
line 43 catches) or with any other exception, which propagates.
-/

/-- Outcome of an external pandas read call: a frame, a Unicode decode
failure, or any other exception (which `load_df` does not catch). -/
inductive ReadErr where
  | unicodeDecode
  | other (msg : String)
deriving Repr, DecidableEq

/-- A file on disk, seen through the three reader calls `load_df` can make
on it. -/
structure FileOnDisk where
  excelRead : Except ReadErr Df
  utf8Read : Except ReadErr Df
  latin1Read : Except ReadErr Df
deriving Repr

/-- What `load_df` can raise: the `ValueError` of line 46, or an exception
propagating out of a reader call. -/
inductive LoadErr where
  | unsupported (ext : String)
  | readFail (e : ReadErr)
deriving Repr, DecidableEq

/-- Line 35: `original_name.lower().rsplit('.', 1)[-1]` — everything after
the last dot of the lower-cased name, or the whole lower-cased name when it
has no dot. -/
def extOf (name : String) : String :=
  ⟨((pyLower name).data.reverse.takeWhile (fun c => c != '.')).reverse⟩

/-- Lines 34-46: dispatch on the extension; Excel for `xlsx`/`xls`; for
`csv` try UTF-8 and fall back to Latin-1 exactly on `UnicodeDecodeError`;
otherwise raise `ValueError` (unsupported extension). -/
def load_df (file : FileOnDisk) (originalName : String) : Except LoadErr Df :=
  let ext := extOf originalName
  if ext = "xlsx" ∨ ext = "xls" then
    file.excelRead.mapError LoadErr.readFail
  else if ext = "csv" then
    match file.utf8Read with
    | Except.ok d => Except.ok d
    | Except.error ReadErr.unicodeDecode => file.latin1Read.mapError LoadErr.readFail
    | Except.error e => Except.error (LoadErr.readFail e)
  else Except.error (LoadErr.unsupported ext)

/-!
## The overview-stats step, `routes.py` lines 265-273

`extract_ydata_overview_stats` lives in `quality.py` (outside `src/`); its
return value on the profile document enters as an input, modelled as the
dictionary it would return (an association list). Lines 270-273 read four
metrics out of it with `dict.get(key, "N/A")`, guarded by the Python
truthiness of `y_stats`.
-/

/-- Python truthiness of the `dataset.profile_path` column value (`None` or
the empty string are falsy). -/
def pathTruthy : Option String → Bool
  | none => false
  | some p => p ≠ ""

/-- Python truthiness of the `y_stats` value: `None` and the empty dict are
falsy. -/
def statsTruthy : Option (List (String × String)) → Bool
  | none => false
  | some d => d ≠ []

/-- Lines 265-268: `y_stats = None`, overwritten by the extractor's result
only when the profile was generated and a profile path is recorded. -/
def yStatsOf (profileGenerated : Bool) (profilePath : Option String)
    (extracted : List (String × String)) : Option (List (String × String)) :=
  if profileGenerated ∧ pathTruthy profilePath then some extracted else none

/-- Lines 270-273, one metric: `y_stats.get(key, "N/A") if y_stats else
"N/A"`. -/
def yMetric (yStats : Option (List (String × String))) (key : String) :
    String :=
  if statsTruthy yStats then ((yStats.getD []).lookup key).getD "N/A"
  else "N/A"

/-- The four overview metric keys read on lines 270-273. -/
def overviewKeys : List String :=
  ["missing_cells", "missing_cells_percent", "duplicate_rows",
   "duplicate_rows_percent"]

/-!
## Target-column resolution, `routes.py` lines 328-336 and 239-246

`auto_detect_target_column` lives in `quality.py` (outside `src/`); its
result on the dataset enters as an input. The session entry for
`manual_target_column_<id>` is an `Option String` (`none` when the key is
absent); `session.get` yields it, and the step returns the resolved target
together with the session entry as it stands afterwards.
-/

/-- Lines 328-336: `manual_target = session.get(session_key)`; a truthy
override naming an existing column wins; otherwise auto-detect, and a truthy
override naming a missing column is popped from the session. Returns
(detected target, session entry after the step). -/
def resolveTargetStep : Option String → List String → String →
    String × Option String
  | none, _, autoDetected => (autoDetected, none)
  | some m, cols, autoDetected =>
    if m ≠ "" ∧ m ∈ cols then (m, some m)
    else (autoDetected, if m ≠ "" ∧ m ∉ cols then none else some m)

/-- Lines 239-246 (`change_target_column`): a missing or empty form value is
rejected and the session entry stays; otherwise the entry is set to the
submitted name. This is the only writer of the session key, so a stored
override is never the empty string. -/
def storeTargetOverride (form : Option String) (current : Option String) :
    Option String :=
  match form with
  | none => current
  | some t => if t = "" then current else some t

/-!
## The outlier total, `routes.py` line 398

`detect_outliers` lives in `quality.py` (outside `src/`); the route reports
`out_tbl.get("outlier_count", 0)` verbatim.
-/

/-- Modelled from the spec: `detect_outliers`'s `outlier_count` field is
missing from `src/`; §3 and §4.3 of the specification define it as the size
of the union of the three flagged index sets ("a derived total count = size
of the union"). -/
def outlierCount (statIdx semIdx structIdx : List Nat) : Nat :=
  (statIdx.toFinset ∪ semIdx.toFinset ∪ structIdx.toFinset).card

/-!
## Helper lemmas on the merged tagged view
-/

theorem tagRows_nil (df : Df) (L : String) : tagRows df [] L = [] := rfl

/-- Skipping an empty block and tagging an empty block agree, so the merged
sequence is always the three tagged blocks in order. -/
theorem buildMerged_eq (df : Df) (s1 s2 s3 : List Nat) :
    buildMerged df s1 s2 s3 =
      tagRows df s1 "Statistical" ++ tagRows df s2 "AI-Based"
        ++ tagRows df s3 "Structural" := by
  unfold buildMerged
  by_cases h1 : s1 = [] <;> by_cases h2 : s2 = [] <;> by_cases h3 : s3 = [] <;>
    simp [h1, h2, h3, tagRows_nil]

theorem countP_tagRows_tag (df : Df) (s : List Nat) (L T : String) (i : Nat) :
    (tagRows df s L).countP (fun r => r.idx == i && r.tag == T) =
      if L = T then s.count i else 0 := by
  rw [tagRows, List.countP_map]
  by_cases hLT : L = T
  · subst hLT
    rw [if_pos rfl, List.count_eq_countP]
    apply List.countP_congr
    intro j _
    simp [Function.comp]
  · rw [if_neg hLT]
    apply List.countP_eq_zero.mpr
    intro j _
    simp [Function.comp]
    intro _
    exact fun h => absurd h hLT

theorem countP_tagRows_idx (df : Df) (s : List Nat) (L : String) (i : Nat) :
    (tagRows df s L).countP (fun r => r.idx == i) = s.count i := by
  rw [tagRows, List.countP_map, List.count_eq_countP]
  apply List.countP_congr
  intro j _
  simp [Function.comp]

theorem count_of_nodup {s : List Nat} (h : s.Nodup) (i : Nat) :
    s.count i = if i ∈ s then 1 else 0 := by
  by_cases hm : i ∈ s
  · rw [if_pos hm]
    exact List.count_eq_one_of_mem h hm
  · rw [if_neg hm]
    exact List.count_eq_zero_of_not_mem hm

theorem filter_tagRows_same (df : Df) (s : List Nat) (L : String) :
    (tagRows df s L).filter (fun r => r.tag == L) = tagRows df s L := by
  apply List.filter_eq_self.mpr
  intro r hr
  obtain ⟨j, _, rfl⟩ := List.mem_map.mp hr
  simp

theorem filter_tagRows_other (df : Df) (s : List Nat) {L T : String}
    (h : L ≠ T) : (tagRows df s L).filter (fun r => r.tag == T) = [] := by
  apply List.filter_eq_nil_iff.mpr
  intro r hr
  obtain ⟨j, _, rfl⟩ := List.mem_map.mp hr
  simpa using h

theorem map_idx_tagRows (df : Df) (s : List Nat) (L : String) :
    (tagRows df s L).map (fun r => r.idx) = s := by
  rw [tagRows, List.map_map]
  simp [Function.comp_def]

theorem map_tag_tagRows (df : Df) (s : List Nat) (L : String) :
    (tagRows df s L).map (fun r => r.tag) = List.replicate s.length L := by
  rw [tagRows, List.map_map]
  simp [Function.comp_def]

/-- Rank of a category tag in the merged view's fixed method order. -/
def tagRank : String → Nat
  | "Statistical" => 0
  | "AI-Based" => 1
  | _ => 2

/-!
## Claim theorems
-/

/-- C2: in the merged tagged outlier sequence, a row index flagged by one
detector contributes exactly one entry carrying that detector's label
(`Statistical` for the statistical list, `AI-Based` for the semantic list,
`Structural` for the structural list), and an index flagged by k of the
detectors appears k times in all. The detector outputs are sets of indices,
so the index lists are assumed duplicate-free. -/
theorem claim_C2_merged_tagged_counts (df : Df) (s1 s2 s3 : List Nat)
    (h1 : s1.Nodup) (h2 : s2.Nodup) (h3 : s3.Nodup) (i : Nat) :
    ((buildMerged df s1 s2 s3).countP
        (fun r => r.idx == i && r.tag == "Statistical") =
      if i ∈ s1 then 1 else 0)
    ∧ ((buildMerged df s1 s2 s3).countP
        (fun r => r.idx == i && r.tag == "AI-Based") =
      if i ∈ s2 then 1 else 0)
    ∧ ((buildMerged df s1 s2 s3).countP
        (fun r => r.idx == i && r.tag == "Structural") =
      if i ∈ s3 then 1 else 0)
    ∧ ((buildMerged df s1 s2 s3).countP (fun r => r.idx == i) =
      (if i ∈ s1 then 1 else 0) + (if i ∈ s2 then 1 else 0)
        + (if i ∈ s3 then 1 else 0)) := by
  rw [buildMerged_eq]
  refine ⟨?_, ?_, ?_, ?_⟩ <;>
    rw [List.countP_append, List.countP_append]
  · rw [countP_tagRows_tag, countP_tagRows_tag, countP_tagRows_tag]
    simp [count_of_nodup h1]
  · rw [countP_tagRows_tag, countP_tagRows_tag, countP_tagRows_tag]
    simp [count_of_nodup h2]
  · rw [countP_tagRows_tag, countP_tagRows_tag, countP_tagRows_tag]
    simp [count_of_nodup h3]
  · rw [countP_tagRows_idx, countP_tagRows_idx, countP_tagRows_idx,
      count_of_nodup h1, count_of_nodup h2, count_of_nodup h3]

/-- Witness for C2 at a concrete input: dataset with three rows, statistical
indices `[0, 2]`, semantic indices `[2]`, no structural indices, probed at
row index 2 (flagged by two detectors, so it appears twice). -/
theorem claim_C2_witness :
    ((buildMerged ⟨["a"], [["u"], ["v"], ["w"]]⟩ [0, 2] [2] []).countP
        (fun r => r.idx == 2 && r.tag == "Statistical") =
      if 2 ∈ [0, 2] then 1 else 0)
    ∧ ((buildMerged ⟨["a"], [["u"], ["v"], ["w"]]⟩ [0, 2] [2] []).countP
        (fun r => r.idx == 2 && r.tag == "AI-Based") =
      if 2 ∈ [2] then 1 else 0)
    ∧ ((buildMerged ⟨["a"], [["u"], ["v"], ["w"]]⟩ [0, 2] [2] []).countP
        (fun r => r.idx == 2 && r.tag == "Structural") =
      if 2 ∈ ([] : List Nat) then 1 else 0)
    ∧ ((buildMerged ⟨["a"], [["u"], ["v"], ["w"]]⟩ [0, 2] [2] []).countP
        (fun r => r.idx == 2) =
      (if 2 ∈ [0, 2] then 1 else 0) + (if 2 ∈ [2] then 1 else 0)
        + (if 2 ∈ ([] : List Nat) then 1 else 0)) :=
  claim_C2_merged_tagged_counts ⟨["a"], [["u"], ["v"], ["w"]]⟩ [0, 2] [2] []
    (by decide) (by decide) (by decide) 2

/-- C10: in the unfiltered merged view the entries are grouped by method in
the fixed order Statistical, then AI-Based, then Structural, and within each
method's group the entries follow that method's index list order. -/
theorem claim_C10_merged_grouped (df : Df) (s1 s2 s3 : List Nat) :
    List.Sorted (fun a b => tagRank a ≤ tagRank b)
      ((buildMerged df s1 s2 s3).map (fun r => r.tag))
    ∧ ((buildMerged df s1 s2 s3).filter
        (fun r => r.tag == "Statistical")).map (fun r => r.idx) = s1
    ∧ ((buildMerged df s1 s2 s3).filter
        (fun r => r.tag == "AI-Based")).map (fun r => r.idx) = s2
    ∧ ((buildMerged df s1 s2 s3).filter
        (fun r => r.tag == "Structural")).map (fun r => r.idx) = s3 := by
  rw [buildMerged_eq]
  refine ⟨?_, ?_, ?_, ?_⟩
  · rw [List.map_append, List.map_append, map_tag_tagRows, map_tag_tagRows,
      map_tag_tagRows]
    unfold List.Sorted
    rw [List.pairwise_append, List.pairwise_append]
    refine ⟨⟨List.pairwise_replicate.mpr (Or.inr le_rfl),
      List.pairwise_replicate.mpr (Or.inr le_rfl), ?_⟩,
      List.pairwise_replicate.mpr (Or.inr le_rfl), ?_⟩
    · intro a ha b hb
      rw [List.eq_of_mem_replicate ha, List.eq_of_mem_replicate hb]
      decide
    · intro a ha b hb
      rw [List.eq_of_mem_replicate hb]
      rcases List.mem_append.mp ha with h | h
      · rw [List.eq_of_mem_replicate h]
        decide
      · rw [List.eq_of_mem_replicate h]
        decide
  · rw [List.filter_append, List.filter_append, filter_tagRows_same,
      filter_tagRows_other df s2 (by decide), filter_tagRows_other df s3
        (by decide)]
    simp [map_idx_tagRows]
  · rw [List.filter_append, List.filter_append,
      filter_tagRows_other df s1 (by decide), filter_tagRows_same,
      filter_tagRows_other df s3 (by decide)]
    simp [map_idx_tagRows]
  · rw [List.filter_append, List.filter_append,
      filter_tagRows_other df s1 (by decide),
      filter_tagRows_other df s2 (by decide), filter_tagRows_same]
    simp [map_idx_tagRows]

/-- C8: generating the merged outlier view leaves the loaded dataset
unchanged — after the block of lines 289-306 the dataframe's columns and
rows (hence all values) are those it was loaded with, and the added
`__outlier_type__` column lives only in the copied blocks that were
appended to `merged_rows`. -/
theorem claim_C8_no_mutation (df : Df) (s1 s2 s3 : List Nat) :
    (mergedBlockState df s1 s2 s3).1.cols = df.cols
    ∧ (mergedBlockState df s1 s2 s3).1.rows = df.rows
    ∧ ∀ t ∈ (mergedBlockState df s1 s2 s3).2, outlierTypeCol ∈ t.cols := by
  unfold mergedBlockState
  by_cases h1 : s1 = [] <;> by_cases h2 : s2 = [] <;> by_cases h3 : s3 = [] <;>
    simp [h1, h2, h3, copyDf, addCol, selectRows]

/-- C5 (counterexample): the selector value `AI` is none of `statistical`,
`ai`, `structural`, so by the claim it should leave the merged sequence
unchanged; on the merged view of a dataset whose statistical detector
flagged row 0, the code instead narrows the view to the (empty) `AI-Based`
category, because line 309 lower-cases the parameter before matching. -/
theorem claim_C5_counterexample :
    ("AI" ≠ "statistical" ∧ "AI" ≠ "ai" ∧ "AI" ≠ "structural")
    ∧ filterTagged (some "AI") (buildMerged ⟨["a"], [["x"]]⟩ [0] [] [])
        ≠ buildMerged ⟨["a"], [["x"]]⟩ [0] [] [] := by
  decide

/-- C5 (amended): the selector is compared case-insensitively — filtering
keeps exactly the rows tagged `Statistical` when the lower-cased selector is
`statistical`, `AI-Based` when it is `ai`, `Structural` when it is
`structural`, and yields the whole sequence unchanged for every other value
(absence of the parameter gives the selector `all`, which is such a
value). -/
theorem claim_C5_filter_amended (param : Option String)
    (merged : List TaggedRow) :
    filterTagged param merged =
      merged.filter (fun r =>
        if selectorOf param = "statistical" then r.tag == "Statistical"
        else if selectorOf param = "ai" then r.tag == "AI-Based"
        else if selectorOf param = "structural" then r.tag == "Structural"
        else true) := by
  unfold filterTagged
  by_cases hs : selectorOf param = "statistical"
  · simp [hs]
  · by_cases ha : selectorOf param = "ai"
    · simp [hs, ha]
    · by_cases hst : selectorOf param = "structural"
      · simp [hs, ha, hst]
      · simp [hs, ha, hst]

/-- C1 (the code at the failing input): when no detector flagged any row,
`merged_rows` stays empty, so `merged_df` is the column-less
`pd.DataFrame()` of line 306; a request with `?filter=statistical` then
indexes the missing `__outlier_type__` column on line 312 and the route
raises `KeyError` instead of returning a report. -/
theorem claim_C1_keyerror_on_empty :
    quality_issues ⟨["a"], [["x"]]⟩ [] [] [] (some "statistical") =
      Except.error "KeyError: __outlier_type__" := rfl

/-- C4: for a supplied manual override — necessarily a non-empty string,
since its only writer `change_target_column` (lines 239-246) rejects empty
submissions — naming an existing column, the route resolves the target to
the override itself; for an override naming a missing column it resolves to
whatever the automatic detector returns. -/
theorem claim_C4_override_wins (cols : List String) (auto m : String)
    (hm : m ≠ "") :
    (m ∈ cols → (resolveTargetStep (some m) cols auto).1 = m)
    ∧ (m ∉ cols → (resolveTargetStep (some m) cols auto).1 = auto) := by
  constructor
  · intro hmem
    simp [resolveTargetStep, hm, hmem]
  · intro hmem
    simp [resolveTargetStep, hm, hmem]

/-- Witness for C4: override `label` over columns `[age, label]` wins; the
absent override name `gone` falls back to the auto-detected `age`. -/
theorem claim_C4_witness :
    (resolveTargetStep (some "label") ["age", "label"] "age").1 = "label"
    ∧ (resolveTargetStep (some "gone") ["age", "label"] "age").1 = "age" :=
  ⟨(claim_C4_override_wins ["age", "label"] "age" "label" (by decide)).1
      (by decide),
    (claim_C4_override_wins ["age", "label"] "age" "gone" (by decide)).2
      (by decide)⟩

/-- C9: a stored override (non-empty, see `storeTargetOverride`) naming a
column absent from the dataset is popped from the session and the target is
auto-detected; an absent session entry stays absent, and a valid override
leaves its entry in place. -/
theorem claim_C9_session_cleanup (cols : List String) (auto m : String)
    (hm : m ≠ "") :
    resolveTargetStep none cols auto = (auto, none)
    ∧ (m ∈ cols → resolveTargetStep (some m) cols auto = (m, some m))
    ∧ (m ∉ cols → resolveTargetStep (some m) cols auto = (auto, none)) := by
  refine ⟨rfl, ?_, ?_⟩
  · intro hmem
    simp [resolveTargetStep, hm, hmem]
  · intro hmem
    simp [resolveTargetStep, hm, hmem]

/-- Witness for C9: with columns `[age, label]` and auto detection yielding
`age`: no stored entry stays none; the valid override `label` stays stored;
the stale override `gone` is popped and `age` is resolved. -/
theorem claim_C9_witness :
    resolveTargetStep none ["age", "label"] "age" = ("age", none)
    ∧ resolveTargetStep (some "label") ["age", "label"] "age" =
        ("label", some "label")
    ∧ resolveTargetStep (some "gone") ["age", "label"] "age" =
        ("age", none) :=
  ⟨(claim_C9_session_cleanup ["age", "label"] "age" "x" (by decide)).1,
    (claim_C9_session_cleanup ["age", "label"] "age" "label" (by decide)).2.1
      (by decide),
    (claim_C9_session_cleanup ["age", "label"] "age" "gone" (by decide)).2.2
      (by decide)⟩

/-- C6: the loader dispatches on the (case-insensitively compared) filename
extension — `xlsx`/`xls` go to the Excel reader; `csv` goes to the UTF-8
CSV reader, falling back to the Latin-1 reader exactly when UTF-8 decoding
fails (any other reader exception propagates unchanged); every other
extension raises the unsupported-extension error and yields no frame. -/
theorem claim_C6_loader_dispatch (f : FileOnDisk) (name : String) :
    ((extOf name = "xlsx" ∨ extOf name = "xls") →
      load_df f name = f.excelRead.mapError LoadErr.readFail)
    ∧ (extOf name = "csv" →
        ((∀ d, f.utf8Read = Except.ok d → load_df f name = Except.ok d)
          ∧ (f.utf8Read = Except.error ReadErr.unicodeDecode →
              load_df f name = f.latin1Read.mapError LoadErr.readFail)
          ∧ (∀ msg, f.utf8Read = Except.error (ReadErr.other msg) →
              load_df f name =
                Except.error (LoadErr.readFail (ReadErr.other msg)))))
    ∧ (¬(extOf name = "xlsx" ∨ extOf name = "xls" ∨ extOf name = "csv") →
        load_df f name = Except.error (LoadErr.unsupported (extOf name))) := by
  refine ⟨?_, ?_, ?_⟩
  · intro h
    simp [load_df, h]
  · intro h
    have hx : ¬(extOf name = "xlsx" ∨ extOf name = "xls") := by
      rw [h]
      decide
    refine ⟨?_, ?_, ?_⟩
    · intro d hd
      simp [load_df, h, hx, hd]
    · intro hd
      simp [load_df, h, hx, hd]
    · intro msg hd
      simp [load_df, h, hx, hd]
  · intro h
    push_neg at h
    have hx : ¬(extOf name = "xlsx" ∨ extOf name = "xls") := by
      simp [h.1, h.2.1]
    simp [load_df, hx, h.2.2]

/-- Witness for C6 on one concrete file (Excel readable, UTF-8 read fails
with a decode error, Latin-1 readable) under three original filenames: an
upper-case Excel name, a CSV name (exercising the Latin-1 fallback), and a
text name (rejected as unsupported). -/
theorem claim_C6_witness :
    load_df ⟨Except.ok ⟨["a"], [["x"]]⟩, Except.error ReadErr.unicodeDecode,
        Except.ok ⟨["b"], [["y"]]⟩⟩ "Book1.XLSX" =
      (Except.ok (⟨["a"], [["x"]]⟩ : Df)).mapError LoadErr.readFail
    ∧ load_df ⟨Except.ok ⟨["a"], [["x"]]⟩, Except.error ReadErr.unicodeDecode,
        Except.ok ⟨["b"], [["y"]]⟩⟩ "data.csv" =
      (Except.ok (⟨["b"], [["y"]]⟩ : Df)).mapError LoadErr.readFail
    ∧ load_df ⟨Except.ok ⟨["a"], [["x"]]⟩, Except.error ReadErr.unicodeDecode,
        Except.ok ⟨["b"], [["y"]]⟩⟩ "notes.txt" =
      Except.error (LoadErr.unsupported "txt") := by
  refine ⟨?_, ?_, ?_⟩
  · exact (claim_C6_loader_dispatch _ "Book1.XLSX").1 (Or.inl (by decide))
  · exact ((claim_C6_loader_dispatch _ "data.csv").2.1 (by decide)).2.1 rfl
  · have h := (claim_C6_loader_dispatch
      (⟨Except.ok ⟨["a"], [["x"]]⟩, Except.error ReadErr.unicodeDecode,
        Except.ok ⟨["b"], [["y"]]⟩⟩ : FileOnDisk) "notes.txt").2.2 (by decide)
    rw [h]
    rfl

/-- C7: when the profile was not generated or no profile path is recorded,
`y_stats` stays `None` (the extractor is never invoked) and all four
overview metrics read `N/A`; when the extractor does run, each of the four
metrics independently falls back to `N/A` when its key is absent from the
extractor's dictionary, and reads the stored value when present. -/
theorem claim_C7_overview_fallback (pg : Bool) (pp : Option String)
    (ex : List (String × String)) :
    (¬(pg = true ∧ pathTruthy pp = true) →
      yStatsOf pg pp ex = none
        ∧ ∀ k, k ∈ overviewKeys → yMetric (yStatsOf pg pp ex) k = "N/A")
    ∧ ((pg = true ∧ pathTruthy pp = true) →
        ∀ k, k ∈ overviewKeys →
          (ex.lookup k = none → yMetric (yStatsOf pg pp ex) k = "N/A")
            ∧ (∀ v, ex.lookup k = some v →
                yMetric (yStatsOf pg pp ex) k = v)) := by
  constructor
  · intro h
    have hy : yStatsOf pg pp ex = none := by
      simp only [yStatsOf, if_neg h]
    exact ⟨hy, fun k _ => by rw [hy]; rfl⟩
  · intro h k _
    have hy : yStatsOf pg pp ex = some ex := by
      simp only [yStatsOf, if_pos h]
    constructor
    · intro hlk
      by_cases hex : ex = []
      · subst hex
        rw [hy]
        rfl
      · rw [hy]
        simp [yMetric, statsTruthy, hex, hlk]
    · intro v hlk
      have hex : ex ≠ [] := by
        intro he
        subst he
        simp at hlk
      rw [hy]
      simp [yMetric, statsTruthy, hex, hlk]

/-- Witness for C7: with the profile generated and a recorded path, an
extractor result holding only `missing_cells` yields that value for
`missing_cells` and `N/A` for the absent `duplicate_rows`; with no profile
generated the `missing_cells` metric reads `N/A`. -/
theorem claim_C7_witness :
    yMetric (yStatsOf true (some "profile_1.html") [("missing_cells", "5")])
        "missing_cells" = "5"
    ∧ yMetric (yStatsOf true (some "profile_1.html") [("missing_cells", "5")])
        "duplicate_rows" = "N/A"
    ∧ yMetric (yStatsOf false none [("missing_cells", "5")])
        "missing_cells" = "N/A" :=
  ⟨((claim_C7_overview_fallback true (some "profile_1.html")
        [("missing_cells", "5")]).2 (by decide) "missing_cells"
        (by decide)).2 "5" rfl,
    ((claim_C7_overview_fallback true (some "profile_1.html")
        [("missing_cells", "5")]).2 (by decide) "duplicate_rows"
        (by decide)).1 rfl,
    ((claim_C7_overview_fallback false none
        [("missing_cells", "5")]).1 (by decide)).2 "missing_cells"
        (by decide)⟩

/-- C3: the reported outlier total is the size of the union of the three
flagged index sets (first conjunct characterizes that union's membership);
it is at most the sum of the three per-method counts, with equality exactly
when no row index is flagged by more than one method. The detector outputs
are sets, so the index lists are assumed duplicate-free (their lengths are
the per-method counts of lines 401-403). -/
theorem claim_C3_total_union (s1 s2 s3 : List Nat)
    (h1 : s1.Nodup) (h2 : s2.Nodup) (h3 : s3.Nodup) :
    (∀ i, i ∈ s1.toFinset ∪ s2.toFinset ∪ s3.toFinset ↔
        (i ∈ s1 ∨ i ∈ s2 ∨ i ∈ s3))
    ∧ outlierCount s1 s2 s3 ≤ s1.length + s2.length + s3.length
    ∧ (outlierCount s1 s2 s3 = s1.length + s2.length + s3.length ↔
        ∀ i, ¬(i ∈ s1 ∧ i ∈ s2) ∧ ¬(i ∈ s1 ∧ i ∈ s3)
          ∧ ¬(i ∈ s2 ∧ i ∈ s3)) := by
  have hA := List.toFinset_card_of_nodup h1
  have hB := List.toFinset_card_of_nodup h2
  have hC := List.toFinset_card_of_nodup h3
  have k1 := Finset.card_union_add_card_inter
    (s1.toFinset ∪ s2.toFinset) s3.toFinset
  have k2 := Finset.card_union_add_card_inter s1.toFinset s2.toFinset
  have kle1 := Finset.card_union_le (s1.toFinset ∪ s2.toFinset) s3.toFinset
  have kle2 := Finset.card_union_le s1.toFinset s2.toFinset
  refine ⟨?_, ?_, ?_⟩
  · intro i
    simp [List.mem_toFinset, or_assoc]
  · unfold outlierCount
    omega
  · unfold outlierCount
    constructor
    · intro h i
      have hz1 : ((s1.toFinset ∪ s2.toFinset) ∩ s3.toFinset).card = 0 := by
        omega
      have hz2 : (s1.toFinset ∩ s2.toFinset).card = 0 := by
        omega
      have e1 := Finset.eq_empty_iff_forall_not_mem.mp
        (Finset.card_eq_zero.mp hz1)
      have e2 := Finset.eq_empty_iff_forall_not_mem.mp
        (Finset.card_eq_zero.mp hz2)
      refine ⟨?_, ?_, ?_⟩
      · rintro ⟨hi1, hi2⟩
        exact e2 i (Finset.mem_inter.mpr
          ⟨List.mem_toFinset.mpr hi1, List.mem_toFinset.mpr hi2⟩)
      · rintro ⟨hi1, hi3⟩
        exact e1 i (Finset.mem_inter.mpr
          ⟨Finset.mem_union_left _ (List.mem_toFinset.mpr hi1),
            List.mem_toFinset.mpr hi3⟩)
      · rintro ⟨hi2, hi3⟩
        exact e1 i (Finset.mem_inter.mpr
          ⟨Finset.mem_union_right _ (List.mem_toFinset.mpr hi2),
            List.mem_toFinset.mpr hi3⟩)
    · intro h
      have e2 : s1.toFinset ∩ s2.toFinset = ∅ := by
        apply Finset.eq_empty_iff_forall_not_mem.mpr
        intro i hi
        rcases Finset.mem_inter.mp hi with ⟨hi1, hi2⟩
        exact (h i).1 ⟨List.mem_toFinset.mp hi1, List.mem_toFinset.mp hi2⟩
      have e1 : (s1.toFinset ∪ s2.toFinset) ∩ s3.toFinset = ∅ := by
        apply Finset.eq_empty_iff_forall_not_mem.mpr
        intro i hi
        rcases Finset.mem_inter.mp hi with ⟨hi12, hi3⟩
        rcases Finset.mem_union.mp hi12 with hi1 | hi2
        · exact (h i).2.1
            ⟨List.mem_toFinset.mp hi1, List.mem_toFinset.mp hi3⟩
        · exact (h i).2.2
            ⟨List.mem_toFinset.mp hi2, List.mem_toFinset.mp hi3⟩
      rw [e1] at k1
      rw [e2] at k2
      rw [Finset.card_empty] at k1 k2
      omega

/-- Witness for C3 at a concrete input: disjoint index sets `[0, 4]`, `[1]`
and `[2, 3]`, where the total equals 5, the sum of the per-method counts. -/
theorem claim_C3_witness :
    (∀ i, i ∈ ([0, 4] : List Nat).toFinset ∪ ([1] : List Nat).toFinset
          ∪ ([2, 3] : List Nat).toFinset ↔
        (i ∈ ([0, 4] : List Nat) ∨ i ∈ ([1] : List Nat)
          ∨ i ∈ ([2, 3] : List Nat)))
    ∧ outlierCount [0, 4] [1] [2, 3] ≤
        ([0, 4] : List Nat).length + ([1] : List Nat).length
          + ([2, 3] : List Nat).length
    ∧ (outlierCount [0, 4] [1] [2, 3] =
          ([0, 4] : List Nat).length + ([1] : List Nat).length
            + ([2, 3] : List Nat).length ↔
        ∀ i, ¬(i ∈ ([0, 4] : List Nat) ∧ i ∈ ([1] : List Nat))
          ∧ ¬(i ∈ ([0, 4] : List Nat) ∧ i ∈ ([2, 3] : List Nat))
          ∧ ¬(i ∈ ([1] : List Nat) ∧ i ∈ ([2, 3] : List Nat))) :=
  claim_C3_total_union [0, 4] [1] [2, 3] (by decide) (by decide) (by decide)

end CrystalLab
